import Mathlib

/-
Shallow embedding of the long-running batch-job control logic of the
PE_MedicineRecognision front end: the stream-image readiness remediation
(`handleMissingData` / `fetchDataAvailability` on the k-fold sort /
stream-image page), the dataset-split start, stop and progress polling,
the annotation-remap start and polling, the augmentation progress loop,
and the k-fold sort start handler.  Network effects are modelled by
explicit outcome parameters (did the HTTP response arrive and was it ok)
and by traces of the endpoints each handler posts to, in order.
-/

namespace StreamImages

/-- `DataAvailability` as declared on the stream-image page: the four
readiness flags returned by `GET /data_availability_for_stream_images`. -/
structure DataAvailability where
  images : Bool
  mask_images : Bool
  split : Bool
  background_changed : Bool
  deriving DecidableEq, Repr

def splitEndpoint : String := "split_consumer_reference"

def backgroundEndpoint : String := "change_background"

/-- `handleMissingData(currentData)`: issues the remediation POSTs.  The two
outcome flags say whether each POST, if issued, returns an ok response.
Result: the list of endpoints POSTed to, in issue order, and the value
`availabilityError` is left with.  A thrown error in the first block skips
the second block (both blocks sit in one try/catch). -/
def handleMissingData (currentData : DataAvailability)
    (splitOk backgroundOk : Bool) : List String × Option String :=
  if !currentData.split && currentData.images && currentData.mask_images then
    if splitOk then
      if !currentData.background_changed && currentData.images
          && currentData.mask_images then
        if backgroundOk then
          ([splitEndpoint, backgroundEndpoint], none)
        else
          ([splitEndpoint, backgroundEndpoint], some "Failed to change background")
      else
        ([splitEndpoint], none)
    else
      ([splitEndpoint], some "Failed to split consumer reference")
  else
    if !currentData.background_changed && currentData.images
        && currentData.mask_images then
      if backgroundOk then
        ([backgroundEndpoint], none)
      else
        ([backgroundEndpoint], some "Failed to change background")
    else
      ([], none)

/-- The component state left behind by one run of `fetchDataAvailability`. -/
structure FetchTrace where
  remediationRequests : List String
  availabilityFetches : Nat
  availability : DataAvailability
  availabilityError : Option String
  dataSuccess : Bool
  loading : Bool
  deriving DecidableEq, Repr

def initialAvailability : DataAvailability :=
  { images := false, mask_images := false, split := false,
    background_changed := false }

/-- `fetchDataAvailability` from the stream-image page effect.
`initialFetch` is the parsed body of the first availability GET (`none`
when the fetch fails or the response is not ok); `refetch` is the parsed
body of the single re-fetch issued after remediation (the code performs no
`response.ok` check there, so `none` means the fetch or parse threw).
`handleMissingData` catches its own errors, so a failed remediation still
reaches the re-fetch and still sets `dataSuccess`. -/
def fetchDataAvailability (initialFetch : Option DataAvailability)
    (splitOk backgroundOk : Bool)
    (refetch : Option DataAvailability) : FetchTrace :=
  match initialFetch with
  | none =>
      { remediationRequests := [], availabilityFetches := 1,
        availability := initialAvailability,
        availabilityError := some "Failed to fetch data availability",
        dataSuccess := false, loading := false }
  | some data =>
      if !data.split || !data.background_changed then
        let hm := handleMissingData data splitOk backgroundOk
        match refetch with
        | none =>
            { remediationRequests := hm.1, availabilityFetches := 2,
              availability := data,
              availabilityError := some "An unknown error occurred",
              dataSuccess := false, loading := false }
        | some newData =>
            { remediationRequests := hm.1, availabilityFetches := 2,
              availability := newData,
              availabilityError := hm.2,
              dataSuccess := true, loading := false }
      else
        { remediationRequests := [], availabilityFetches := 1,
          availability := data, availabilityError := none,
          dataSuccess := true, loading := false }

/-- State left by the stream-image page's `startSplit` click handler
(the one that POSTs `/start_stream_images`). -/
structure StartResult where
  requests : List String
  streamError : Option String
  isProcessing : Bool
  stopEnabled : Bool
  deriving DecidableEq, Repr

/-- The stream-image page's `startSplit` handler: guards only on a mode
being selected, never on the availability flags. -/
def startStreamImages (selectedMode : String)
    (prevProcessing prevStop : Bool) (startOk : Bool) : StartResult :=
  if selectedMode = "" then
    { requests := [], streamError := some "You must choose a mode!",
      isProcessing := prevProcessing, stopEnabled := prevStop }
  else if startOk then
    { requests := ["start_stream_images"], streamError := none,
      isProcessing := true, stopEnabled := true }
  else
    { requests := ["start_stream_images"],
      streamError := some "Failed to start stream image creation",
      isProcessing := false, stopEnabled := false }

/-- The Start button's enabled condition:
`disabled = isProcessing || !modeSelected || !dataSuccess`. -/
def startButtonEnabled (isProcessing modeSelected dataSuccess : Bool) : Bool :=
  !isProcessing && modeSelected && dataSuccess

end StreamImages

/-- One poll tick's network outcome: a parsed `{progress, processed, total}`
body, a non-ok HTTP response, or a thrown fetch error. -/
inductive PollOutcome where
  | sample (progress processed total : Int)
  | httpError
  | netError
  deriving DecidableEq, Repr

namespace SplitDataset

/-- `SplitParams` from the split-dataset page.  The numeric fields come from
`parseInt(value) || 0`, so they are integers. -/
structure SplitParams where
  train : Int
  val : Int
  test : Int
  segregated : Bool
  deriving DecidableEq, Repr

/-- State left by one invocation of the split page's `startSplit`. -/
structure StartResult where
  requests : List String
  splitError : Option String
  isProcessing : Bool
  progress : Int
  deriving DecidableEq, Repr

def sumMessage (total : Int) : String :=
  "Split percentages must sum to 100% (current sum: " ++ toString total ++ "%)"

/-- `startSplit`: validates the percentage sum and the no-zero rule before
any HTTP call; on the early returns the processing flag and progress are
left unchanged.  After the start POST, success sets progress to 100 and the
`finally` block clears the processing flag either way. -/
def startSplit (p : SplitParams) (prevProcessing : Bool) (prevProgress : Int)
    (startOk : Bool) : StartResult :=
  let total := p.train + p.val + p.test
  if total ≠ 100 then
    { requests := [], splitError := some (sumMessage total),
      isProcessing := prevProcessing, progress := prevProgress }
  else if p.train = 0 ∨ p.val = 0 ∨ p.test = 0 then
    { requests := [], splitError := some "Values can\x27t be 0.",
      isProcessing := prevProcessing, progress := prevProgress }
  else if startOk then
    { requests := ["start_split"], splitError := none,
      isProcessing := false, progress := 100 }
  else
    { requests := ["start_split"],
      splitError := some "Failed to start dataset split",
      isProcessing := false, progress := 0 }

/-- The split page's poll-relevant component state.  `polling` records
whether the 500 ms interval is still installed. -/
structure PollState where
  polling : Bool
  isProcessing : Bool
  progress : Int
  processed : Int
  total : Int
  isComplete : Bool
  deriving DecidableEq, Repr

/-- The body of the split page's interval callback, applied when a poll
response arrives.  A non-ok response is skipped silently and a thrown fetch
error is only logged: neither changes any state.  The callback itself never
consults the `polling` flag, so it behaves the same on a state whose
interval has already been cleared. -/
def pollResponse (st : PollState) (o : PollOutcome) : PollState :=
  match o with
  | .sample p pr t =>
      let st := { st with progress := p, processed := pr, total := t }
      if p = 100 then
        { st with polling := false, isProcessing := false, isComplete := true }
      else st
  | .httpError => st
  | .netError => st

/-- A scheduled tick: fires only while the interval is installed. -/
def pollTick (st : PollState) (o : PollOutcome) : PollState :=
  if st.polling then pollResponse st o else st

/-- Repeated scheduled ticks. -/
def runPolling (st : PollState) : List PollOutcome → PollState
  | [] => st
  | o :: os => runPolling (pollTick st o) os

/-- Outcome of the `POST /stop_split` call inside `stopSplit`. -/
inductive StopOutcome where
  | success
  | rejected
  | network
  deriving DecidableEq, Repr

/-- `stopSplit`: on an ok response it zeroes progress and the progress info
and clears the processing flag, which unmounts the polling effect and
clears the interval; a rejected or failed call only sets the error. -/
def stopSplit (st : PollState) (o : StopOutcome) : PollState × Option String :=
  match o with
  | .success =>
      ({ st with progress := 0, isProcessing := false, polling := false,
                 processed := 0, total := 0 }, none)
  | .rejected => (st, some "Failed to stop dataset split")
  | .network => (st, some "An unknown error occurred")

end SplitDataset

/-- The C1 snapshot: images and masks present, split and background missing. -/
def snapshotC1 : StreamImages.DataAvailability :=
  { images := true, mask_images := true, split := false,
    background_changed := false }

/-- An all-true snapshot, as returned after successful remediation. -/
def snapshotAll : StreamImages.DataAvailability :=
  { images := true, mask_images := true, split := true,
    background_changed := true }

/-- Claim C1: on snapshot {images:true, mask_images:true, split:false,
background_changed:false} the remediation issues `split_consumer_reference`
first and `change_background` second, strictly sequentially (when the first
call fails the second is never issued), the availability snapshot is
re-fetched exactly once afterwards (two fetches total), and a failing
`change_background` surfaces an error while `split_consumer_reference` is
issued exactly once. -/
theorem C1_remediation_order :
    (StreamImages.handleMissingData snapshotC1 true true).1
        = [StreamImages.splitEndpoint, StreamImages.backgroundEndpoint]
    ∧ (StreamImages.handleMissingData snapshotC1 true false).1
        = [StreamImages.splitEndpoint, StreamImages.backgroundEndpoint]
    ∧ (StreamImages.handleMissingData snapshotC1 false true).1
        = [StreamImages.splitEndpoint]
    ∧ (StreamImages.handleMissingData snapshotC1 true false).2
        = some "Failed to change background"
    ∧ ((StreamImages.handleMissingData snapshotC1 true false).1).count
        StreamImages.splitEndpoint = 1
    ∧ (StreamImages.fetchDataAvailability (some snapshotC1) true true
        (some snapshotAll)).availabilityFetches = 2
    ∧ (StreamImages.fetchDataAvailability (some snapshotC1) true false
        (some snapshotC1)).availabilityFetches = 2
    ∧ (StreamImages.fetchDataAvailability (some snapshotC1) true false
        (some snapshotC1)).availabilityError
        = some "Failed to change background" := by
  decide

/-- Claim C10: remediation requests are only issued when both base flags
(`images` and `mask_images`) are true; if either is false, no remediation
endpoint is called regardless of `split` and `background_changed`. -/
theorem C10_base_flags_guard (d : StreamImages.DataAvailability)
    (sOk bOk : Bool) (h : (d.images && d.mask_images) = false) :
    (StreamImages.handleMissingData d sOk bOk).1 = [] := by
  rcases d with ⟨i, m, s, b⟩
  revert h
  cases i <;> cases m <;> cases s <;> cases b <;> cases sOk <;> cases bOk <;>
    decide

/-- Witness for C10 at a concrete snapshot with `images = false`. -/
theorem C10_base_flags_guard_witness :
    ((false : Bool) && true) = false
    ∧ (StreamImages.handleMissingData
        { images := false, mask_images := true, split := false,
          background_changed := false } true true).1 = [] :=
  ⟨by decide,
   C10_base_flags_guard
     { images := false, mask_images := true, split := false,
       background_changed := false } true true (by decide)⟩

namespace Remap

/-- The remap page's poll-relevant state: the interval installed by
`startRemap` and the processing flag. -/
structure PollState where
  polling : Bool
  isProcessing : Bool
  progress : Int
  processed : Int
  total : Int
  deriving DecidableEq, Repr

/-- The remap page's interval callback: a non-ok progress response throws,
and the catch clears the interval and the processing flag, so a single
failed poll stops the loop; a sample with progress at least 100 also
stops it. -/
def pollResponse (st : PollState) (o : PollOutcome) : PollState :=
  match o with
  | .sample p pr t =>
      let st := { st with progress := p, processed := pr, total := t }
      if p ≥ 100 then { st with polling := false, isProcessing := false }
      else st
  | .httpError => { st with polling := false, isProcessing := false }
  | .netError => { st with polling := false, isProcessing := false }

/-- State touched by `startRemap`.  The page keeps no error message state:
start failures are only logged to the console. -/
structure StartState where
  requests : List String
  isProcessing : Bool
  progress : Int
  polling : Bool
  error : Option String
  deriving DecidableEq, Repr

/-- `startRemap`: returns silently (no request, no error, nothing changed)
when no files are selected or a run is already processing; otherwise it
POSTs `/start_remap_annotation` and, on success, installs the 500 ms
polling interval. -/
def startRemap (filesSelected : Bool) (prev : StartState)
    (startOk : Bool) : StartState :=
  if !filesSelected || prev.isProcessing then prev
  else if startOk then
    { requests := prev.requests ++ ["start_remap_annotation"],
      isProcessing := true, progress := 0, polling := true,
      error := prev.error }
  else
    { requests := prev.requests ++ ["start_remap_annotation"],
      isProcessing := false, progress := 0, polling := false,
      error := prev.error }

end Remap

/-- Error outcomes leave the split page's interval callback state unchanged. -/
theorem splitPollTick_error (st : SplitDataset.PollState) (o : PollOutcome)
    (h : o = .httpError ∨ o = .netError) :
    SplitDataset.pollTick st o = st := by
  rcases h with h | h <;> subst h <;>
    simp [SplitDataset.pollTick, SplitDataset.pollResponse]

/-- A run of split poll ticks consisting only of errors changes nothing. -/
theorem runPolling_errors (st : SplitDataset.PollState)
    (os : List PollOutcome) (h : ∀ o ∈ os, o = .httpError ∨ o = .netError) :
    SplitDataset.runPolling st os = st := by
  induction os with
  | nil => rfl
  | cons o os ih =>
      have ho := h o (by simp)
      have hrest : ∀ o ∈ os, o = PollOutcome.httpError ∨ o = PollOutcome.netError := by
        intro x hx
        exact h x (by simp [hx])
      simp [SplitDataset.runPolling, splitPollTick_error st o ho, ih hrest]

/-- Once the split page's interval is cleared, scheduled ticks do nothing. -/
theorem runPolling_stopped (st : SplitDataset.PollState)
    (os : List PollOutcome) (h : st.polling = false) :
    SplitDataset.runPolling st os = st := by
  induction os with
  | nil => rfl
  | cons o os ih =>
      simp [SplitDataset.runPolling, SplitDataset.pollTick, h, ih]

def runningSplitC2 : SplitDataset.PollState :=
  { polling := true, isProcessing := true, progress := 40, processed := 4,
    total := 10, isComplete := false }

def runningRemapC2 : Remap.PollState :=
  { polling := true, isProcessing := true, progress := 40, processed := 4,
    total := 10 }

/-- Claim C2 fails on the code: three consecutive poll errors leave a
running split job entirely unchanged (still running, still polling, never
Failed), and the remap poller gives up after a single poll error. -/
theorem C2_counterexample :
    SplitDataset.runPolling runningSplitC2
        [.netError, .netError, .netError] = runningSplitC2
    ∧ (SplitDataset.runPolling runningSplitC2
        [.netError, .netError, .netError]).isProcessing = true
    ∧ (SplitDataset.runPolling runningSplitC2
        [.netError, .netError, .netError]).polling = true
    ∧ (Remap.pollResponse runningRemapC2 .netError).polling = false
    ∧ (Remap.pollResponse runningRemapC2 .netError).isProcessing
        = false := by
  decide

/-- Claim C2 amended: no poller counts errors or produces a Failed state.
The split poller leaves all state unchanged on every poll error, however
many arrive in a row, so it polls a dead backend unboundedly; the remap
poller stops polling and clears its processing flag on the first poll
error, whether a non-ok response or a thrown fetch. -/
theorem C2_amended (st : SplitDataset.PollState)
    (st2 : Remap.PollState) (errs : List PollOutcome)
    (herr : ∀ o ∈ errs, o = .httpError ∨ o = .netError) :
    SplitDataset.runPolling st errs = st
    ∧ (Remap.pollResponse st2 .netError).polling = false
    ∧ (Remap.pollResponse st2 .netError).isProcessing = false
    ∧ (Remap.pollResponse st2 .httpError).polling = false
    ∧ (Remap.pollResponse st2 .httpError).isProcessing = false := by
  refine ⟨runPolling_errors st errs herr, ?_, ?_, ?_, ?_⟩ <;>
    simp [Remap.pollResponse]

/-- Witness for the amended C2 at a concrete running state and error run. -/
theorem C2_amended_witness :
    (∀ o ∈ [PollOutcome.netError, PollOutcome.netError],
        o = PollOutcome.httpError ∨ o = PollOutcome.netError)
    ∧ (SplitDataset.runPolling
        { polling := true, isProcessing := true, progress := 40,
          processed := 4, total := 10, isComplete := false }
        [PollOutcome.netError, PollOutcome.netError]
        = { polling := true, isProcessing := true, progress := 40,
            processed := 4, total := 10, isComplete := false }
      ∧ (Remap.pollResponse
          { polling := true, isProcessing := true, progress := 40,
            processed := 4, total := 10 } .netError).polling = false
      ∧ (Remap.pollResponse
          { polling := true, isProcessing := true, progress := 40,
            processed := 4, total := 10 } .netError).isProcessing = false
      ∧ (Remap.pollResponse
          { polling := true, isProcessing := true, progress := 40,
            processed := 4, total := 10 } .httpError).polling = false
      ∧ (Remap.pollResponse
          { polling := true, isProcessing := true, progress := 40,
            processed := 4, total := 10 } .httpError).isProcessing = false) :=
  ⟨by decide,
   C2_amended
     { polling := true, isProcessing := true, progress := 40,
       processed := 4, total := 10, isComplete := false }
     { polling := true, isProcessing := true, progress := 40,
       processed := 4, total := 10 }
     [PollOutcome.netError, PollOutcome.netError] (by decide)⟩

def runningSplitC3 : SplitDataset.PollState :=
  { polling := true, isProcessing := true, progress := 50, processed := 5,
    total := 10, isComplete := false }

/-- Claim C3 fails on the code: after `stopSplit` resolves successfully
(progress reset to 0, interval cleared), a poll response that was already
in flight still mutates the progress fields when it arrives — there is no
staleness rejection. -/
theorem C3_counterexample :
    (SplitDataset.stopSplit runningSplitC3 .success).1.progress = 0
    ∧ (SplitDataset.pollResponse
        (SplitDataset.stopSplit runningSplitC3 .success).1
        (.sample 75 8 10)).progress = 75
    ∧ SplitDataset.pollResponse
        (SplitDataset.stopSplit runningSplitC3 .success).1
        (.sample 75 8 10)
        ≠ (SplitDataset.stopSplit runningSplitC3 .success).1 := by
  decide

/-- Claim C3 amended: after a successful cancel no further poll ticks fire
(the interval is cleared), but a poll request already in flight when the
cancel resolved is still processed with no staleness check — its sample
overwrites progress, processed and total of the cancelled run. -/
theorem C3_amended (st : SplitDataset.PollState) (os : List PollOutcome)
    (p pr t : Int) :
    SplitDataset.runPolling (SplitDataset.stopSplit st .success).1 os
      = (SplitDataset.stopSplit st .success).1
    ∧ (SplitDataset.pollResponse (SplitDataset.stopSplit st .success).1
        (.sample p pr t)).progress = p
    ∧ (SplitDataset.pollResponse (SplitDataset.stopSplit st .success).1
        (.sample p pr t)).processed = pr
    ∧ (SplitDataset.pollResponse (SplitDataset.stopSplit st .success).1
        (.sample p pr t)).total = t := by
  refine ⟨runPolling_stopped _ os rfl, ?_, ?_, ?_⟩ <;>
    simp [SplitDataset.pollResponse, SplitDataset.stopSplit] <;>
    split <;> simp

/-- Claim C8: a split start whose percentages do not sum to 100 is rejected
by caller-side validation before any HTTP request: the sum error message is
set, no start request is issued, and the processing state and progress are
untouched. -/
theorem C8_sum_validation (p : SplitDataset.SplitParams) (pp : Bool)
    (pg : Int) (ok : Bool) (h : p.train + p.val + p.test ≠ 100) :
    (SplitDataset.startSplit p pp pg ok).requests = []
    ∧ (SplitDataset.startSplit p pp pg ok).splitError
        = some (SplitDataset.sumMessage (p.train + p.val + p.test))
    ∧ (SplitDataset.startSplit p pp pg ok).isProcessing = pp
    ∧ (SplitDataset.startSplit p pp pg ok).progress = pg := by
  simp [SplitDataset.startSplit, h]

/-- Witness for C8 at the spec's example {train:70, val:20, test:15}. -/
theorem C8_sum_validation_witness :
    ((70 : Int) + 20 + 15 ≠ 100)
    ∧ ((SplitDataset.startSplit
        { train := 70, val := 20, test := 15, segregated := false }
        false 0 true).requests = []
      ∧ (SplitDataset.startSplit
          { train := 70, val := 20, test := 15, segregated := false }
          false 0 true).splitError
          = some (SplitDataset.sumMessage ((70 : Int) + 20 + 15))
      ∧ (SplitDataset.startSplit
          { train := 70, val := 20, test := 15, segregated := false }
          false 0 true).isProcessing = false
      ∧ (SplitDataset.startSplit
          { train := 70, val := 20, test := 15, segregated := false }
          false 0 true).progress = 0) :=
  ⟨by decide,
   C8_sum_validation
     { train := 70, val := 20, test := 15, segregated := false }
     false 0 true (by decide)⟩

/-- Claim C9: a split start whose percentages sum to 100 but contain a zero
is rejected before any HTTP request with the message about zero values, and
the processing state and progress are untouched. -/
theorem C9_zero_validation (p : SplitDataset.SplitParams) (pp : Bool)
    (pg : Int) (ok : Bool) (hsum : p.train + p.val + p.test = 100)
    (hz : p.train = 0 ∨ p.val = 0 ∨ p.test = 0) :
    (SplitDataset.startSplit p pp pg ok).requests = []
    ∧ (SplitDataset.startSplit p pp pg ok).splitError
        = some "Values can\x27t be 0."
    ∧ (SplitDataset.startSplit p pp pg ok).isProcessing = pp
    ∧ (SplitDataset.startSplit p pp pg ok).progress = pg := by
  simp [SplitDataset.startSplit, hsum, hz]

/-- Witness for C9 at {train:0, val:2, test:98}. -/
theorem C9_zero_validation_witness :
    ((0 : Int) + 2 + 98 = 100)
    ∧ ((0 : Int) = 0 ∨ (2 : Int) = 0 ∨ (98 : Int) = 0)
    ∧ ((SplitDataset.startSplit
        { train := 0, val := 2, test := 98, segregated := false }
        false 0 true).requests = []
      ∧ (SplitDataset.startSplit
          { train := 0, val := 2, test := 98, segregated := false }
          false 0 true).splitError = some "Values can\x27t be 0."
      ∧ (SplitDataset.startSplit
          { train := 0, val := 2, test := 98, segregated := false }
          false 0 true).isProcessing = false
      ∧ (SplitDataset.startSplit
          { train := 0, val := 2, test := 98, segregated := false }
          false 0 true).progress = 0) :=
  ⟨by decide, by decide,
   C9_zero_validation
     { train := 0, val := 2, test := 98, segregated := false }
     false 0 true (by decide) (by decide)⟩

def busyRemapC4 : Remap.StartState :=
  { requests := ["start_remap_annotation"], isProcessing := true,
    progress := 0, polling := true, error := none }

def validSplitC4 : SplitDataset.SplitParams :=
  { train := 70, val := 20, test := 10, segregated := false }

/-- Claim C4 fails on the code: a second start while a run is processing is
not rejected with any error — the remap page's `startRemap` returns
silently with all state unchanged and no error set, and the split page's
`startSplit` has no already-running check at all, so two immediate
successive invocations issue two start requests. -/
theorem C4_counterexample :
    Remap.startRemap true busyRemapC4 true = busyRemapC4
    ∧ (Remap.startRemap true busyRemapC4 true).error = none
    ∧ (SplitDataset.startSplit validSplitC4 false 0 true).requests
        ++ (SplitDataset.startSplit validSplitC4 false 0 true).requests
        = ["start_split", "start_split"] := by
  decide

/-- Claim C4 amended: a duplicate start is never rejected with an
AlreadyRunning error.  The remap page silently ignores a start while
processing (no request, no error, state unchanged); the split page performs
no running check inside `startSplit`, so every invocation with valid
parameters issues a start request and two successive invocations issue
two; duplicate starts are otherwise prevented only by disabling the
button while processing. -/
theorem C4_amended (prev : Remap.StartState) (ok : Bool)
    (h : prev.isProcessing = true) (p : SplitDataset.SplitParams)
    (ok1 ok2 : Bool) (hsum : p.train + p.val + p.test = 100)
    (hz : ¬(p.train = 0 ∨ p.val = 0 ∨ p.test = 0)) :
    Remap.startRemap true prev ok = prev
    ∧ (Remap.startRemap true prev ok).error = prev.error
    ∧ (SplitDataset.startSplit p false 0 ok1).requests
        ++ (SplitDataset.startSplit p false 0 ok2).requests
        = ["start_split", "start_split"] := by
  have h1 : Remap.startRemap true prev ok = prev := by
    simp [Remap.startRemap, h]
  have h2 : ∀ okx : Bool,
      (SplitDataset.startSplit p false 0 okx).requests = ["start_split"] := by
    intro okx
    cases okx <;> simp [SplitDataset.startSplit, hsum, hz]
  exact ⟨h1, by rw [h1], by rw [h2 ok1, h2 ok2]; rfl⟩

/-- Witness for the amended C4 at a concrete busy state and valid params. -/
theorem C4_amended_witness :
    busyRemapC4.isProcessing = true
    ∧ validSplitC4.train + validSplitC4.val + validSplitC4.test = 100
    ∧ ¬(validSplitC4.train = 0 ∨ validSplitC4.val = 0 ∨ validSplitC4.test = 0)
    ∧ (Remap.startRemap true busyRemapC4 false = busyRemapC4
      ∧ (Remap.startRemap true busyRemapC4 false).error
          = busyRemapC4.error
      ∧ (SplitDataset.startSplit validSplitC4 false 0 true).requests
          ++ (SplitDataset.startSplit validSplitC4 false 0 false).requests
          = ["start_split", "start_split"]) :=
  ⟨by decide, by decide, by decide,
   C4_amended busyRemapC4 false (by decide) validSplitC4 true false
     (by decide) (by decide)⟩

namespace KfoldSort

/-- State left by the k-fold sort page's `startSorting` click handler. -/
structure StartResult where
  requests : List String
  error : Option String
  isProcessing : Bool
  deriving DecidableEq, Repr

/-- `startSorting` from the k-fold sort page: requires a fold mode, then
POSTs `/start_stream_images` with the fold mode as body.  There is no
`finally`, so the processing flag stays set even when the start fails, and
the page installs no progress-polling effect at all. -/
def startSorting (foldMode : String) (startOk : Bool) : StartResult :=
  if foldMode = "" then
    { requests := [], error := some "You must choose a fold mode!",
      isProcessing := false }
  else if startOk then
    { requests := ["start_stream_images"], error := none,
      isProcessing := true }
  else
    { requests := ["start_stream_images"],
      error := some "Failed to start stream image creation",
      isProcessing := true }

end KfoldSort

/-- Claim C5 concerns a slip in the code: starting a k-fold sort POSTs
`/start_stream_images` (the stream-image endpoint, with the stream-image
failure message), never `/start_sort`, and no `/get_sort_process` polling
exists on the page at any interval. -/
theorem C5_code_behavior :
    (KfoldSort.startSorting "new" true).requests = ["start_stream_images"]
    ∧ "start_sort" ∉ (KfoldSort.startSorting "new" true).requests
    ∧ "get_sort_process" ∉ (KfoldSort.startSorting "new" true).requests
    ∧ (KfoldSort.startSorting "new" false).error
        = some "Failed to start stream image creation" := by
  decide

namespace Augmentation

/-- `ProgressData` as declared on the augmentation page: the
`{current, total, progress, status}` response shape. -/
structure ProgressData where
  current : Int
  total : Int
  progress : Int
  status : String
  deriving DecidableEq, Repr

/-- The augmentation page's poll-relevant state.  `polling` records whether
a further `setTimeout(checkProgress, 500)` is scheduled. -/
structure PollState where
  polling : Bool
  isProcessing : Bool
  current : Int
  total : Int
  progress : Int
  status : String
  error : Option String
  snackbarOpen : Bool
  deriving DecidableEq, Repr

/-- A poll outcome for the augmentation shape. -/
inductive Outcome where
  | sample (current total progress : Int) (status : String)
  | httpError
  | netError
  deriving DecidableEq, Repr

/-- `checkProgress`: stores the whole sample, stops (without rescheduling)
exactly when `total > 0 && current >= total`, otherwise schedules the next
tick; a non-ok response or thrown fetch sets the error, clears the
processing flag and does not reschedule. -/
def checkProgress (st : PollState) (o : Outcome) : PollState :=
  match o with
  | .sample c t p s =>
      let st := { st with current := c, total := t, progress := p, status := s }
      if t > 0 ∧ c ≥ t then
        { st with isProcessing := false, snackbarOpen := true,
                  polling := false }
      else
        { st with polling := true }
  | .httpError =>
      { st with error := some "Error checking progress",
                isProcessing := false, polling := false }
  | .netError =>
      { st with error := some "Error checking progress",
                isProcessing := false, polling := false }

end Augmentation

/-- The spec's unified `ProgressSample` model. -/
structure ProgressSample where
  progressPercent : Int
  processedCount : Int
  totalCount : Int
  rawStatus : String
  deriving DecidableEq, Repr

/-- Modelled from the spec: the normalizing adapter for the
`{progress, processed, total}` shape, which carries no status string. -/
def normalizeSimple (progress processed total : Int) : ProgressSample :=
  { progressPercent := progress, processedCount := processed,
    totalCount := total, rawStatus := "" }

/-- Modelled from the spec: the normalizing adapter for the
`{current, total, progress, status}` shape. -/
def normalizeStatus (current total progress : Int)
    (status : String) : ProgressSample :=
  { progressPercent := progress, processedCount := current,
    totalCount := total, rawStatus := status }

/-- Modelled from the spec: the unified terminal test — normalized progress
at least 100, or an explicit terminal status string. -/
def specTerminal (s : ProgressSample) : Bool :=
  decide (100 ≤ s.progressPercent) || s.rawStatus == "success"
    || s.rawStatus == "done"

def runningAugC6 : Augmentation.PollState :=
  { polling := true, isProcessing := true, current := 0, total := 0,
    progress := 0, status := "Idle", error := none, snackbarOpen := false }

def runningSplitC6 : SplitDataset.PollState :=
  { polling := true, isProcessing := true, progress := 40, processed := 4,
    total := 10, isComplete := false }

/-- Claim C6 fails on the code: samples that are terminal under the spec's
normalized test keep the code's pollers running.  The augmentation sample
`{current:0, total:0, progress:100, status:"success"}` is spec-terminal but
`checkProgress` reschedules and stays processing; the split sample with
progress 101 is spec-terminal but the split poller (which tests
`progress === 100` exactly) keeps polling. -/
theorem C6_counterexample :
    specTerminal (normalizeStatus 0 0 100 "success") = true
    ∧ (Augmentation.checkProgress runningAugC6
        (.sample 0 0 100 "success")).polling = true
    ∧ (Augmentation.checkProgress runningAugC6
        (.sample 0 0 100 "success")).isProcessing = true
    ∧ specTerminal (normalizeSimple 101 5 10) = true
    ∧ (SplitDataset.pollResponse runningSplitC6
        (.sample 101 5 10)).polling = true
    ∧ (SplitDataset.pollResponse runningSplitC6
        (.sample 101 5 10)).isProcessing = true := by
  decide

/-- Claim C6 amended: each poller has its own terminal test and none
consults the status string or a shared normalization — on a running state,
the split poller stops exactly when the sample's progress equals 100, the
remap poller exactly when it is at least 100, and the augmentation poller
exactly when total is positive and current has reached total (its progress
and status fields play no part). -/
theorem C6_amended (st : SplitDataset.PollState) (h1 : st.polling = true)
    (st2 : Remap.PollState) (g1 : st2.polling = true)
    (st3 : Augmentation.PollState) (k1 : st3.polling = true)
    (p pr t c tot pg : Int) (s : String) :
    ((SplitDataset.pollResponse st (.sample p pr t)).polling = false ↔ p = 100)
    ∧ ((Remap.pollResponse st2 (.sample p pr t)).polling = false
        ↔ 100 ≤ p)
    ∧ ((Augmentation.checkProgress st3 (.sample c tot pg s)).polling = false
        ↔ (tot > 0 ∧ c ≥ tot)) := by
  refine ⟨?_, ?_, ?_⟩
  · by_cases hp : p = 100 <;>
      simp [SplitDataset.pollResponse, hp, h1]
  · by_cases hp : 100 ≤ p <;>
      simp [Remap.pollResponse, hp, g1]
  · by_cases hc : tot > 0 ∧ c ≥ tot <;>
      simp [Augmentation.checkProgress, hc, k1]

/-- Witness for the amended C6 at concrete running states and samples. -/
theorem C6_amended_witness :
    runningSplitC6.polling = true
    ∧ runningRemapC2.polling = true
    ∧ runningAugC6.polling = true
    ∧ (((SplitDataset.pollResponse runningSplitC6
          (.sample 100 5 10)).polling = false ↔ (100 : Int) = 100)
      ∧ ((Remap.pollResponse runningRemapC2
          (.sample 100 5 10)).polling = false ↔ (100 : Int) ≤ 100)
      ∧ ((Augmentation.checkProgress runningAugC6
          (.sample 3 7 40 "running")).polling = false
          ↔ ((7 : Int) > 0 ∧ (3 : Int) ≥ 7))) :=
  ⟨by decide, by decide, by decide,
   C6_amended runningSplitC6 (by decide) runningRemapC2 (by decide)
     runningAugC6 (by decide) 100 5 10 3 7 40 "running"⟩

/-- Each remediation endpoint is issued at most once per
`handleMissingData` run. -/
theorem handleMissingData_count (d : StreamImages.DataAvailability)
    (sOk bOk : Bool) :
    (StreamImages.handleMissingData d sOk bOk).1.count
        StreamImages.splitEndpoint ≤ 1
    ∧ (StreamImages.handleMissingData d sOk bOk).1.count
        StreamImages.backgroundEndpoint ≤ 1 := by
  rcases d with ⟨i, m, s, b⟩
  cases i <;> cases m <;> cases s <;> cases b <;> cases sOk <;> cases bOk <;>
    decide

def stillMissingC7 : StreamImages.DataAvailability :=
  { images := true, mask_images := true, split := false,
    background_changed := false }

/-- Claim C7 fails on the code: when the re-fetched snapshot after the one
remediation cycle still shows `split = false`, the fetch nevertheless marks
data success, the Start button condition is satisfied, and the start
handler issues the HTTP start request — the start is not refused while a
declared flag is false. -/
theorem C7_counterexample :
    (StreamImages.fetchDataAvailability (some stillMissingC7) true true
        (some stillMissingC7)).dataSuccess = true
    ∧ (StreamImages.fetchDataAvailability (some stillMissingC7) true true
        (some stillMissingC7)).availability.split = false
    ∧ StreamImages.startButtonEnabled false true
        (StreamImages.fetchDataAvailability (some stillMissingC7) true true
          (some stillMissingC7)).dataSuccess = true
    ∧ (StreamImages.startStreamImages "consumer" false false true).requests
        = ["start_stream_images"] := by
  decide

/-- Claim C7 amended: remediation is attempted at most once per
availability fetch — each remediation endpoint is issued at most once and
the snapshot is fetched at most twice — but the start is not refused when
flags remain false: any completed fetch (initial body and re-fetch body
both parsed) sets data success regardless of the flag values, and the
start handler issues the start request for any selected mode, consulting
no snapshot. -/
theorem C7_amended (init : Option StreamImages.DataAvailability)
    (sOk bOk : Bool) (ref : Option StreamImages.DataAvailability)
    (d ref2 : StreamImages.DataAvailability) (mode : String)
    (pp ps ok : Bool) (hm : mode ≠ "") :
    (StreamImages.fetchDataAvailability init sOk bOk ref).availabilityFetches
        ≤ 2
    ∧ (StreamImages.fetchDataAvailability init sOk bOk
        ref).remediationRequests.count StreamImages.splitEndpoint ≤ 1
    ∧ (StreamImages.fetchDataAvailability init sOk bOk
        ref).remediationRequests.count StreamImages.backgroundEndpoint ≤ 1
    ∧ (StreamImages.fetchDataAvailability (some d) sOk bOk
        (some ref2)).dataSuccess = true
    ∧ (StreamImages.startStreamImages mode pp ps ok).requests
        = ["start_stream_images"] := by
  refine ⟨?_, ?_, ?_, ?_, ?_⟩
  · cases init with
    | none => simp [StreamImages.fetchDataAvailability]
    | some data =>
        simp only [StreamImages.fetchDataAvailability]
        split
        · cases ref <;> simp
        · simp
  · cases init with
    | none => simp [StreamImages.fetchDataAvailability]
    | some data =>
        simp only [StreamImages.fetchDataAvailability]
        split
        · cases ref <;> simpa using (handleMissingData_count data sOk bOk).1
        · simp
  · cases init with
    | none => simp [StreamImages.fetchDataAvailability]
    | some data =>
        simp only [StreamImages.fetchDataAvailability]
        split
        · cases ref <;> simpa using (handleMissingData_count data sOk bOk).2
        · simp
  · simp only [StreamImages.fetchDataAvailability]
    split <;> simp
  · cases ok <;> simp [StreamImages.startStreamImages, hm]

/-- Witness for the amended C7 at concrete snapshots and mode. -/
theorem C7_amended_witness :
    ("consumer" ≠ "")
    ∧ ((StreamImages.fetchDataAvailability (some stillMissingC7) true true
          (some stillMissingC7)).availabilityFetches ≤ 2
      ∧ (StreamImages.fetchDataAvailability (some stillMissingC7) true true
          (some stillMissingC7)).remediationRequests.count
          StreamImages.splitEndpoint ≤ 1
      ∧ (StreamImages.fetchDataAvailability (some stillMissingC7) true true
          (some stillMissingC7)).remediationRequests.count
          StreamImages.backgroundEndpoint ≤ 1
      ∧ (StreamImages.fetchDataAvailability (some stillMissingC7) true true
          (some stillMissingC7)).dataSuccess = true
      ∧ (StreamImages.startStreamImages "consumer" false false
          true).requests = ["start_stream_images"]) :=
  ⟨by decide,
   C7_amended (some stillMissingC7) true true (some stillMissingC7)
     stillMissingC7 stillMissingC7 "consumer" false false true (by decide)⟩
